import Mathlib

/-!
Verification development for the Linux desktop shell of the FruitNinja
Flutter application (`src/linux/my_application.cc`).

The shell is GUI-toolkit glue: an application constructor
(`my_application_new`) and an activation handler
(`my_application_activate`).  We embed the toolkit objects the shell
touches (windows, header bars, Dart-project descriptors) as a state
type `GtkState`, and each toolkit call the source makes as a state
transformer.  Object identity is modelled by a monotonically growing
allocation counter `nextId`; every call also appends an event to a
trace so that the order and multiplicity of the handler's steps can be
stated exactly.
-/

/-- Modelled from the spec: `APPLICATION_ID` is a compile-time constant
string in reverse-DNS form supplied by the build system; its definition
is not under `src/`, only its use in `my_application.cc` is.  The exact
string is irrelevant to every claim below (they compare against this
constant symbolically). -/
def APPLICATION_ID : String := "com.example.fruit_ninja"

/-- Modelled from the spec: `APPLICATION_NAME` is a compile-time constant
display-name string supplied by the build system; its definition is not
under `src/`.  The exact string is irrelevant to every claim below. -/
def APPLICATION_NAME : String := "FruitNinja"

/-- GApplication construction flags, modelled as the set of capabilities
the shell can declare.  The source only ever mentions
`G_APPLICATION_HANDLES_OPEN`. -/
structure GApplicationFlags where
  handles_open : Bool := false
  handles_command_line : Bool := false
deriving Repr, DecidableEq

/-- The `G_APPLICATION_HANDLES_OPEN` flag: the application declares that
it handles open-with-arguments invocations. -/
def G_APPLICATION_HANDLES_OPEN : GApplicationFlags :=
  { handles_open := true }

/-- The application object produced by `my_application_new`: the
"application-id" and "flags" construction properties passed to
`g_object_new` (src/linux/my_application.cc:2-4). -/
structure MyApplication where
  application_id : String
  flags : GApplicationFlags
deriving Repr, DecidableEq

/-- `my_application_new` (src/linux/my_application.cc:1-5): constructs the
application object with the fixed identifier `APPLICATION_ID` and the
`G_APPLICATION_HANDLES_OPEN` flag. -/
def my_application_new : MyApplication :=
  { application_id := APPLICATION_ID
    flags := G_APPLICATION_HANDLES_OPEN }

/-- A top-level GTK window as the shell observes it: creation binds it to
an application; the shell may set its title, default size and titlebar
widget and show it.  `flutterProject` records the Dart-project
descriptor embedded into the window's content area, if any; the source
contains no call that sets it (no `fl_view_new` / `gtk_container_add`
appears in `my_application.cc`). -/
structure GtkWindow where
  id : Nat
  app : Nat
  title : Option String
  defaultSize : Option (Int × Int)
  titlebar : Option Nat
  visible : Bool
  flutterProject : Option Nat
deriving Repr, DecidableEq

/-- A GTK header bar: a titlebar widget with a display title and a flag
for the standard close/minimize/maximize window-control buttons. -/
structure GtkHeaderBar where
  id : Nat
  title : Option String
  showTitleButtons : Bool
  visible : Bool
deriving Repr, DecidableEq

/-- A Dart-project descriptor (`FlDartProject`): `live` is true between
`fl_dart_project_new` and the `g_object_unref` that releases it. -/
structure FlDartProject where
  id : Nat
  live : Bool
deriving Repr, DecidableEq

/-- One observable toolkit call made by the shell. -/
inductive GtkEvent where
  | windowNew (window app : Nat)
  | headerBarNew (hb : Nat)
  | widgetShow (widget : Nat)
  | headerBarSetTitle (hb : Nat) (title : String)
  | headerBarSetShowTitleButtons (hb : Nat) (setting : Bool)
  | windowSetTitlebar (window hb : Nat)
  | windowSetTitle (window : Nat) (title : String)
  | windowSetDefaultSize (window : Nat) (width height : Int)
  | dartProjectNew (project : Nat)
  | dartProjectUnref (project : Nat)
deriving Repr, DecidableEq

/-- The toolkit state the shell manipulates: an allocation counter for
fresh object identities, the live toolkit objects, and the trace of
calls made so far. -/
structure GtkState where
  nextId : Nat
  windows : List GtkWindow
  headerBars : List GtkHeaderBar
  projects : List FlDartProject
  trace : List GtkEvent
deriving Repr, DecidableEq

/-- The toolkit state before any shell code has run. -/
def initState : GtkState :=
  { nextId := 0, windows := [], headerBars := [], projects := [], trace := [] }

/-- `gtk_application_window_new` (src/linux/my_application.cc:10): creates
a fresh, initially hidden top-level window bound to `app`, with no
title, no default size and no titlebar widget yet. -/
def gtk_application_window_new (app : Nat) (st : GtkState) : Nat × GtkState :=
  (st.nextId,
   { st with
       nextId := st.nextId + 1
       windows := { id := st.nextId, app := app, title := none, defaultSize := none,
                    titlebar := none, visible := false, flutterProject := none } :: st.windows
       trace := st.trace ++ [GtkEvent.windowNew st.nextId app] })

/-- `gtk_header_bar_new` (src/linux/my_application.cc:17): creates a
fresh, initially hidden header bar with no title and the window-control
buttons not yet enabled. -/
def gtk_header_bar_new (st : GtkState) : Nat × GtkState :=
  (st.nextId,
   { st with
       nextId := st.nextId + 1
       headerBars := { id := st.nextId, title := none, showTitleButtons := false,
                       visible := false } :: st.headerBars
       trace := st.trace ++ [GtkEvent.headerBarNew st.nextId] })

/-- `gtk_widget_show` (src/linux/my_application.cc:18,25): marks the
widget with the given identity visible, whether it is a window or a
header bar. -/
def gtk_widget_show (widget : Nat) (st : GtkState) : GtkState :=
  { st with
      windows := st.windows.map fun w =>
        if w.id == widget then { w with visible := true } else w
      headerBars := st.headerBars.map fun b =>
        if b.id == widget then { b with visible := true } else b
      trace := st.trace ++ [GtkEvent.widgetShow widget] }

/-- `gtk_header_bar_set_title` (src/linux/my_application.cc:19). -/
def gtk_header_bar_set_title (hb : Nat) (title : String) (st : GtkState) : GtkState :=
  { st with
      headerBars := st.headerBars.map fun b =>
        if b.id == hb then { b with title := some title } else b
      trace := st.trace ++ [GtkEvent.headerBarSetTitle hb title] }

/-- `gtk_header_bar_set_show_title_buttons` (src/linux/my_application.cc:20). -/
def gtk_header_bar_set_show_title_buttons (hb : Nat) (setting : Bool) (st : GtkState) : GtkState :=
  { st with
      headerBars := st.headerBars.map fun b =>
        if b.id == hb then { b with showTitleButtons := setting } else b
      trace := st.trace ++ [GtkEvent.headerBarSetShowTitleButtons hb setting] }

/-- `gtk_window_set_titlebar` (src/linux/my_application.cc:21). -/
def gtk_window_set_titlebar (window hb : Nat) (st : GtkState) : GtkState :=
  { st with
      windows := st.windows.map fun w =>
        if w.id == window then { w with titlebar := some hb } else w
      trace := st.trace ++ [GtkEvent.windowSetTitlebar window hb] }

/-- `gtk_window_set_title` (src/linux/my_application.cc:23). -/
def gtk_window_set_title (window : Nat) (title : String) (st : GtkState) : GtkState :=
  { st with
      windows := st.windows.map fun w =>
        if w.id == window then { w with title := some title } else w
      trace := st.trace ++ [GtkEvent.windowSetTitle window title] }

/-- `gtk_window_set_default_size` (src/linux/my_application.cc:24). -/
def gtk_window_set_default_size (window : Nat) (width height : Int) (st : GtkState) : GtkState :=
  { st with
      windows := st.windows.map fun w =>
        if w.id == window then { w with defaultSize := some (width, height) } else w
      trace := st.trace ++ [GtkEvent.windowSetDefaultSize window width height] }

/-- `fl_dart_project_new` (src/linux/my_application.cc:27): acquires a
fresh, live Dart-project descriptor. -/
def fl_dart_project_new (st : GtkState) : Nat × GtkState :=
  (st.nextId,
   { st with
       nextId := st.nextId + 1
       projects := { id := st.nextId, live := true } :: st.projects
       trace := st.trace ++ [GtkEvent.dartProjectNew st.nextId] })

/-- The automatic `g_object_unref` that the `g_autoptr(FlDartProject)`
declaration (src/linux/my_application.cc:27) performs when the scoped
variable leaves scope at the handler's closing brace (line 28): the
descriptor ceases to be live. -/
def g_autoptr_unref (project : Nat) (st : GtkState) : GtkState :=
  { st with
      projects := st.projects.map fun p =>
        if p.id == project then { p with live := false } else p
      trace := st.trace ++ [GtkEvent.dartProjectUnref project] }

/-- `my_application_activate` (src/linux/my_application.cc:8-28), in
source order: create the application window; create the header bar,
show it, set its title to `APPLICATION_NAME`, enable its title buttons;
install it as the window's titlebar; set the window title to
"FruitNinja"; set the default size to 1280 × 720; show the window;
acquire a `g_autoptr`-scoped Dart-project descriptor, released when the
handler's scope exits.  (The `MY_APPLICATION(application)` cast on line
9 binds an unused local and has no observable effect.) -/
def my_application_activate (application : Nat) (st0 : GtkState) : GtkState :=
  let w := gtk_application_window_new application st0
  let window := w.1
  let st1 := w.2
  let h := gtk_header_bar_new st1
  let header_bar := h.1
  let st2 := h.2
  let st3 := gtk_widget_show header_bar st2
  let st4 := gtk_header_bar_set_title header_bar APPLICATION_NAME st3
  let st5 := gtk_header_bar_set_show_title_buttons header_bar true st4
  let st6 := gtk_window_set_titlebar window header_bar st5
  let st7 := gtk_window_set_title window "FruitNinja" st6
  let st8 := gtk_window_set_default_size window 1280 720 st7
  let st9 := gtk_widget_show window st8
  let p := fl_dart_project_new st9
  let project := p.1
  let st10 := p.2
  g_autoptr_unref project st10

/-- The window with identity `i`, if the state has one. -/
def findWindow (st : GtkState) (i : Nat) : Option GtkWindow :=
  st.windows.find? fun w => w.id == i

/-- The header bar with identity `i`, if the state has one. -/
def findHeaderBar (st : GtkState) (i : Nat) : Option GtkHeaderBar :=
  st.headerBars.find? fun b => b.id == i

/-- The Dart-project descriptor with identity `i`, if the state has one. -/
def findProject (st : GtkState) (i : Nat) : Option FlDartProject :=
  st.projects.find? fun p => p.id == i

/-- Whether an event is the creation of a top-level window. -/
def isWindowCreation : GtkEvent → Bool
  | GtkEvent.windowNew _ _ => true
  | _ => false

/-- The exact sequence of toolkit calls one activation makes, when the
allocation counter stands at `n` on entry: the window gets identity `n`,
the header bar `n + 1`, the Dart-project descriptor `n + 2`. -/
def activationEvents (n app : Nat) : List GtkEvent :=
  [GtkEvent.windowNew n app,
   GtkEvent.headerBarNew (n + 1),
   GtkEvent.widgetShow (n + 1),
   GtkEvent.headerBarSetTitle (n + 1) APPLICATION_NAME,
   GtkEvent.headerBarSetShowTitleButtons (n + 1) true,
   GtkEvent.windowSetTitlebar n (n + 1),
   GtkEvent.windowSetTitle n "FruitNinja",
   GtkEvent.windowSetDefaultSize n 1280 720,
   GtkEvent.widgetShow n,
   GtkEvent.dartProjectNew (n + 2),
   GtkEvent.dartProjectUnref (n + 2)]

/-- Helper: the full effect of one activation on the trace, for an
arbitrary starting state. -/
lemma activate_trace (app : Nat) (st : GtkState) :
    (my_application_activate app st).trace = st.trace ++ activationEvents st.nextId app := by
  simp [my_application_activate, gtk_application_window_new, gtk_header_bar_new,
        gtk_widget_show, gtk_header_bar_set_title, gtk_header_bar_set_show_title_buttons,
        gtk_window_set_titlebar, gtk_window_set_title, gtk_window_set_default_size,
        fl_dart_project_new, g_autoptr_unref, activationEvents]

/-- Helper: the state of the window one activation creates, at the
handler's return. -/
lemma activate_findWindow (app : Nat) (st : GtkState) :
    findWindow (my_application_activate app st) st.nextId =
      some { id := st.nextId, app := app, title := some "FruitNinja",
             defaultSize := some (1280, 720), titlebar := some (st.nextId + 1),
             visible := true, flutterProject := none } := by
  simp [my_application_activate, gtk_application_window_new, gtk_header_bar_new,
        gtk_widget_show, gtk_header_bar_set_title, gtk_header_bar_set_show_title_buttons,
        gtk_window_set_titlebar, gtk_window_set_title, gtk_window_set_default_size,
        fl_dart_project_new, g_autoptr_unref, findWindow, List.find?]

/-- Helper: the state of the header bar one activation creates, at the
handler's return. -/
lemma activate_findHeaderBar (app : Nat) (st : GtkState) :
    findHeaderBar (my_application_activate app st) (st.nextId + 1) =
      some { id := st.nextId + 1, title := some APPLICATION_NAME,
             showTitleButtons := true, visible := true } := by
  simp [my_application_activate, gtk_application_window_new, gtk_header_bar_new,
        gtk_widget_show, gtk_header_bar_set_title, gtk_header_bar_set_show_title_buttons,
        gtk_window_set_titlebar, gtk_window_set_title, gtk_window_set_default_size,
        fl_dart_project_new, g_autoptr_unref, findHeaderBar, List.find?]

/-- Helper: the Dart-project descriptor one activation acquires is no
longer live at the handler's return. -/
lemma activate_findProject (app : Nat) (st : GtkState) :
    findProject (my_application_activate app st) (st.nextId + 2) =
      some { id := st.nextId + 2, live := false } := by
  simp [my_application_activate, gtk_application_window_new, gtk_header_bar_new,
        gtk_widget_show, gtk_header_bar_set_title, gtk_header_bar_set_show_title_buttons,
        gtk_window_set_titlebar, gtk_window_set_title, gtk_window_set_default_size,
        fl_dart_project_new, g_autoptr_unref, findProject, List.find?]

/-- Helper: an activation leaks no descriptor: every descriptor live at
the handler's return was already live (and present) before it ran. -/
lemma activate_no_leak (app : Nat) (st : GtkState) :
    ∀ p ∈ (my_application_activate app st).projects, p.live = true → p ∈ st.projects := by
  intro p hp hlive
  simp [my_application_activate, gtk_application_window_new, gtk_header_bar_new,
        gtk_widget_show, gtk_header_bar_set_title, gtk_header_bar_set_show_title_buttons,
        gtk_window_set_titlebar, gtk_window_set_title, gtk_window_set_default_size,
        fl_dart_project_new, g_autoptr_unref] at hp
  rcases hp with hp | ⟨q, hq, hqe⟩
  · rw [hp] at hlive; simp at hlive
  · by_cases h : q.id = st.nextId + 1 + 1
    · rw [if_pos h] at hqe
      rw [← hqe] at hlive
      simp at hlive
    · rw [if_neg h] at hqe
      rw [← hqe]; exact hq

/-- Helper: one activation allocates three object identities (window,
header bar, Dart-project descriptor). -/
lemma activate_nextId (app : Nat) (st : GtkState) :
    (my_application_activate app st).nextId = st.nextId + 3 := by
  simp [my_application_activate, gtk_application_window_new, gtk_header_bar_new,
        gtk_widget_show, gtk_header_bar_set_title, gtk_header_bar_set_show_title_buttons,
        gtk_window_set_titlebar, gtk_window_set_title, gtk_window_set_default_size,
        fl_dart_project_new, g_autoptr_unref]

/-- Helper: one activation grows the window list by exactly one. -/
lemma activate_windows_length (app : Nat) (st : GtkState) :
    (my_application_activate app st).windows.length = st.windows.length + 1 := by
  simp [my_application_activate, gtk_application_window_new, gtk_header_bar_new,
        gtk_widget_show, gtk_header_bar_set_title, gtk_header_bar_set_show_title_buttons,
        gtk_window_set_titlebar, gtk_window_set_title, gtk_window_set_default_size,
        fl_dart_project_new, g_autoptr_unref]

/-- Helper: one activation grows the header-bar list by exactly one. -/
lemma activate_headerBars_length (app : Nat) (st : GtkState) :
    (my_application_activate app st).headerBars.length = st.headerBars.length + 1 := by
  simp [my_application_activate, gtk_application_window_new, gtk_header_bar_new,
        gtk_widget_show, gtk_header_bar_set_title, gtk_header_bar_set_show_title_buttons,
        gtk_window_set_titlebar, gtk_window_set_title, gtk_window_set_default_size,
        fl_dart_project_new, g_autoptr_unref]

/-- Helper: the trace of two consecutive activations is the two exact
call sequences back to back, the second over fresh identities. -/
lemma activate_twice (app app2 : Nat) (st : GtkState) :
    (my_application_activate app2 (my_application_activate app st)).trace =
      st.trace ++ activationEvents st.nextId app ++ activationEvents (st.nextId + 3) app2 := by
  rw [activate_trace, activate_trace]
  have h : (my_application_activate app st).nextId = st.nextId + 3 := activate_nextId app st
  rw [h]

/-- Helper: `List.find?` by identity is unchanged by mapping a function
that preserves identities and fixes every element whose identity is the
one looked up. -/
lemma find?_map_of_id_preserving {i : Nat} {u : GtkWindow → GtkWindow}
    (hid : ∀ w, (u w).id = w.id) (hfix : ∀ w, w.id = i → u w = w) :
    ∀ l : List GtkWindow,
      List.find? (fun w => w.id == i) (l.map u) = List.find? (fun w => w.id == i) l := by
  intro l
  induction l with
  | nil => rfl
  | cons w l ih =>
    rw [List.map_cons]
    cases hcond : (w.id == i) with
    | false =>
      rw [List.find?_cons_of_neg _ (by rw [hid]; simp [hcond]),
          List.find?_cons_of_neg _ (by simp [hcond]), ih]
    | true =>
      rw [List.find?_cons_of_pos _ (by rw [hid]; simpa using hcond),
          List.find?_cons_of_pos _ (by simpa using hcond),
          hfix w (by simpa using hcond)]

/-- Helper: an activation touches no pre-existing window: looking up any
identity other than the two the handler allocates for widgets gives the
same result before and after. -/
lemma activate_preserves_findWindow (app : Nat) (st : GtkState) (i : Nat)
    (h1 : i ≠ st.nextId) (h2 : i ≠ st.nextId + 1) :
    findWindow (my_application_activate app st) i = findWindow st i := by
  have e1 : (st.nextId == i) = false := by
    simp [beq_eq_false_iff_ne, Ne.symm h1]
  simp only [my_application_activate, gtk_application_window_new, gtk_header_bar_new,
        gtk_widget_show, gtk_header_bar_set_title, gtk_header_bar_set_show_title_buttons,
        gtk_window_set_titlebar, gtk_window_set_title, gtk_window_set_default_size,
        fl_dart_project_new, g_autoptr_unref, findWindow, List.map_cons]
  rw [List.find?_cons_of_neg _ (by simp [e1])]
  rw [find?_map_of_id_preserving (fun w => by split <;> rfl)
        (fun w hw => by rw [if_neg (by simp [hw, h1])])]
  rw [find?_map_of_id_preserving (fun w => by split <;> rfl)
        (fun w hw => by rw [if_neg (by simp [hw, h1])])]
  rw [find?_map_of_id_preserving (fun w => by split <;> rfl)
        (fun w hw => by rw [if_neg (by simp [hw, h1])])]
  rw [find?_map_of_id_preserving (fun w => by split <;> rfl)
        (fun w hw => by rw [if_neg (by simp [hw, h1])])]
  rw [find?_map_of_id_preserving (fun w => by split <;> rfl)
        (fun w hw => by rw [if_neg (by simp [hw, h2])])]

/-- Claim C1 (code bug in the source): the activation handler does NOT
attach the acquired Dart-project descriptor to the window it
constructs.  At the handler's return the created window carries no
embedded Flutter project (`flutterProject = none`) while the descriptor
it acquired has already been released: the descriptor is dead code.
This holds on every activation, from any starting state. -/
theorem activate_does_not_attach_project (app : Nat) (st : GtkState) :
    (findWindow (my_application_activate app st) st.nextId).map GtkWindow.flutterProject
      = some none ∧
    findProject (my_application_activate app st) (st.nextId + 2)
      = some { id := st.nextId + 2, live := false } := by
  rw [activate_findWindow, activate_findProject]
  exact ⟨rfl, rfl⟩

/-- Claim C2: the activation handler performs exactly the specified
toolkit calls in the specified order: window creation; header-bar
creation, show, title, title buttons; titlebar installation; window
title "FruitNinja"; default size 1280 × 720; window show; scoped
Dart-project acquisition with automatic release at handler exit. -/
theorem my_application_activate_steps (app : Nat) (st : GtkState) :
    (my_application_activate app st).trace = st.trace ++ activationEvents st.nextId app :=
  activate_trace app st

/-- Claim C3: after the activation handler runs, the title of the window
it created equals the literal string "FruitNinja". -/
theorem activate_window_title (app : Nat) (st : GtkState) :
    (findWindow (my_application_activate app st) st.nextId).map GtkWindow.title
      = some (some "FruitNinja") := by
  rw [activate_findWindow]; rfl

/-- Claim C4: after the activation handler runs, the created window's
default size is 1280 × 720. -/
theorem activate_window_default_size (app : Nat) (st : GtkState) :
    (findWindow (my_application_activate app st) st.nextId).map GtkWindow.defaultSize
      = some (some (1280, 720)) := by
  rw [activate_findWindow]; rfl

/-- Claim C5: after the activation handler runs, the created window's
titlebar is a header bar whose title equals the configured display name
`APPLICATION_NAME` and whose standard window-control buttons are
enabled; this holds unconditionally, for every application and every
starting state. -/
theorem activate_titlebar_is_header_bar (app : Nat) (st : GtkState) :
    ∃ hb : Nat,
      (findWindow (my_application_activate app st) st.nextId).map GtkWindow.titlebar
        = some (some hb) ∧
      findHeaderBar (my_application_activate app st) hb
        = some { id := hb, title := some APPLICATION_NAME,
                 showTitleButtons := true, visible := true } := by
  refine ⟨st.nextId + 1, ?_, activate_findHeaderBar app st⟩
  rw [activate_findWindow]; rfl

/-- Claim C6: `my_application_new` takes no inputs and returns an
application whose identifier is the fixed `APPLICATION_ID` and whose
flags declare the open-handling capability. -/
theorem my_application_new_contract :
    my_application_new.application_id = APPLICATION_ID ∧
    my_application_new.flags = G_APPLICATION_HANDLES_OPEN ∧
    my_application_new.flags.handles_open = true :=
  ⟨rfl, rfl, rfl⟩

/-- Claim C7: every invocation of the activation handler creates exactly
one top-level window: the trace gains exactly one window-creation event
and the window list grows by exactly one. -/
theorem activate_creates_exactly_one_window (app : Nat) (st : GtkState) :
    (my_application_activate app st).trace.countP isWindowCreation
      = st.trace.countP isWindowCreation + 1 ∧
    (my_application_activate app st).windows.length = st.windows.length + 1 := by
  refine ⟨?_, activate_windows_length app st⟩
  rw [activate_trace]
  simp [activationEvents, List.countP_append, isWindowCreation, List.countP_cons]

/-- Claim C8: on every execution of the activation handler, the created
window is shown before the handler returns. -/
theorem activate_window_shown (app : Nat) (st : GtkState) :
    (findWindow (my_application_activate app st) st.nextId).map GtkWindow.visible
      = some true := by
  rw [activate_findWindow]; rfl

/-- Claim C9: the Dart-project descriptor the handler acquires is
released by the time the handler returns, and no descriptor leaks: every
descriptor live after the handler was already live before it ran.  (The
handler has a single exit path; this covers it.) -/
theorem activate_releases_project (app : Nat) (st : GtkState) :
    findProject (my_application_activate app st) (st.nextId + 2)
      = some { id := st.nextId + 2, live := false } ∧
    ∀ p ∈ (my_application_activate app st).projects, p.live = true → p ∈ st.projects :=
  ⟨activate_findProject app st, activate_no_leak app st⟩

/-- Claim C10: every invocation constructs a fresh window and a fresh
header bar: after two activations the trace records two complete call
sequences over disjoint identities, the second activation's window is a
new, distinct window, the first activation's window is left exactly as
the first activation built it, and both the window list and the
header-bar list have grown by two. -/
theorem activate_twice_distinct_windows (app app2 : Nat) (st : GtkState) :
    (my_application_activate app st).nextId = st.nextId + 3 ∧
    (my_application_activate app2 (my_application_activate app st)).trace
      = st.trace ++ activationEvents st.nextId app ++ activationEvents (st.nextId + 3) app2 ∧
    st.nextId + 3 ≠ st.nextId ∧
    findWindow (my_application_activate app2 (my_application_activate app st)) (st.nextId + 3)
      = some { id := st.nextId + 3, app := app2, title := some "FruitNinja",
               defaultSize := some (1280, 720), titlebar := some (st.nextId + 4),
               visible := true, flutterProject := none } ∧
    findWindow (my_application_activate app2 (my_application_activate app st)) st.nextId
      = some { id := st.nextId, app := app, title := some "FruitNinja",
               defaultSize := some (1280, 720), titlebar := some (st.nextId + 1),
               visible := true, flutterProject := none } ∧
    (my_application_activate app2 (my_application_activate app st)).windows.length
      = st.windows.length + 2 ∧
    (my_application_activate app2 (my_application_activate app st)).headerBars.length
      = st.headerBars.length + 2 := by
  refine ⟨activate_nextId app st, activate_twice app app2 st, by omega, ?_, ?_, ?_, ?_⟩
  · have h := activate_findWindow app2 (my_application_activate app st)
    rw [activate_nextId] at h
    exact h
  · rw [activate_preserves_findWindow app2 _ st.nextId
          (by rw [activate_nextId]; omega) (by rw [activate_nextId]; omega)]
    exact activate_findWindow app st
  · rw [activate_windows_length, activate_windows_length]
  · rw [activate_headerBars_length, activate_headerBars_length]
